import Mathlib

/-!
Verification development for the BigQuery conversational-agent service.

The embedding follows the three source files:
* `src/beeai.py` — session memory manager, event collector, chat endpoint;
* `src/tools/bigquery/bqtool.py` — the BigQuery tool (read-only query guard,
  query execution envelope);
* `src/tools/fiscalweekid/fiscalweektool.py` — Australian fiscal-week
  conversion.

External collaborators (the beeai framework's `TokenMemory`, `ReActAgent`,
`uuid.uuid4`, the BigQuery client) are modelled abstractly: memory objects
carry an allocation identity, the UUID generator is an injective sequence of
fresh identifiers (modelling global uniqueness of `uuid.uuid4`), and the
query backend is a function parameter.
-/

namespace BeeAI

/-- A conversation memory, modelling `beeai_framework.memory.TokenMemory`.
`TokenMemory(llm)` allocates a fresh empty memory; `allocId` records the
allocation identity so that "same object" / "distinct objects" can be stated
in the embedding, and `messages` is the ordered conversation history. -/
structure TokenMemory where
  allocId : Nat
  messages : List String
deriving DecidableEq, Repr

/-- State of `SessionMemoryManager` (beeai.py lines 81-91): the `sessions`
dict (most recent insertion first), plus the allocation counter for fresh
`TokenMemory` objects and the index of the next UUID to be generated. -/
structure SessionMemoryManager where
  sessions : List (String × TokenMemory)
  nextAlloc : Nat
  nextUuid : Nat
deriving DecidableEq, Repr

/-- `str(uuid.uuid4())`, modelled as an injective sequence of identifiers:
the n-th generated identifier. Global uniqueness of version-4 UUIDs is
modelled by injectivity of this sequence (proved below). -/
def uuidString (n : Nat) : String :=
  String.mk (List.replicate (n + 1) 'u')

/-- Python dict membership / indexing for the `sessions` dict:
first (most recently inserted) binding for the key wins. -/
def lookupSession : List (String × TokenMemory) → String → Option TokenMemory
  | [], _ => none
  | (k, m) :: rest, s => if k = s then some m else lookupSession rest s

/-- Python truthiness test `not session_id`: true for `None` and `""`. -/
def isFalsy : Option String → Bool
  | none => true
  | some s => s = ""

/-- `SessionMemoryManager.get_or_create` (beeai.py lines 86-91):
if the argument is falsy (`None` or `""`) a fresh UUID replaces it; if the
resulting identifier is not a key of `sessions`, a new empty `TokenMemory`
is inserted under it; the identifier and the stored memory are returned. -/
def get_or_create (mgr : SessionMemoryManager) (session_id : Option String) :
    String × TokenMemory × SessionMemoryManager :=
  let sid : String :=
    if isFalsy session_id then uuidString mgr.nextUuid else session_id.getD ""
  let mgr1 : SessionMemoryManager :=
    if isFalsy session_id then { mgr with nextUuid := mgr.nextUuid + 1 } else mgr
  match lookupSession mgr1.sessions sid with
  | some mem => (sid, mem, mgr1)
  | none =>
      let mem : TokenMemory := { allocId := mgr1.nextAlloc, messages := [] }
      (sid, mem,
        { mgr1 with
            sessions := (sid, mem) :: mgr1.sessions
            nextAlloc := mgr1.nextAlloc + 1 })

/-- The manager installed at startup (`SessionMemoryManager(llm)`):
empty session map, counters at zero. -/
def initManager : SessionMemoryManager := ⟨[], 0, 0⟩

/-- Freshness invariant: no identifier the UUID generator may still produce
is already a key of the session map. It holds for `initManager` and is
preserved by `get_or_create`; it models that `uuid.uuid4` never collides
with an existing key. -/
def FreshInv (mgr : SessionMemoryManager) : Prop :=
  ∀ n, mgr.nextUuid ≤ n → lookupSession mgr.sessions (uuidString n) = none

theorem uuidString_inj {m n : Nat} (h : uuidString m = uuidString n) : m = n := by
  have hlen : (uuidString m).length = (uuidString n).length := by rw [h]
  simpa [uuidString, String.length] using hlen

theorem uuidString_ne_empty (n : Nat) : uuidString n ≠ "" := by
  intro h
  have hlen : (uuidString n).length = ("" : String).length := by rw [h]
  simp [uuidString, String.length] at hlen

theorem get_or_create_none (mgr : SessionMemoryManager) (hfresh : FreshInv mgr) :
    get_or_create mgr none =
      (uuidString mgr.nextUuid,
       ⟨mgr.nextAlloc, []⟩,
       ⟨(uuidString mgr.nextUuid, ⟨mgr.nextAlloc, []⟩) :: mgr.sessions,
        mgr.nextAlloc + 1, mgr.nextUuid + 1⟩) := by
  have hnone : lookupSession mgr.sessions (uuidString mgr.nextUuid) = none :=
    hfresh mgr.nextUuid (Nat.le_refl _)
  simp [get_or_create, isFalsy, hnone]

theorem freshInv_after_none (mgr : SessionMemoryManager) (hfresh : FreshInv mgr) :
    FreshInv (get_or_create mgr none).2.2 := by
  rw [get_or_create_none mgr hfresh]
  intro n hn
  dsimp only at hn ⊢
  have hne : uuidString n ≠ uuidString mgr.nextUuid := by
    intro h
    have := uuidString_inj h
    omega
  simp only [lookupSession]
  rw [if_neg (by simpa [eq_comm] using hne)]
  exact hfresh n (by omega)

/-- Claim C1, counterexample: for a previously-unseen, caller-supplied
session identifier ("abc" on the startup manager), `get_or_create` returns
the caller-supplied string itself as the session identifier — not a freshly
generated globally-unique identifier as the claim states. -/
theorem c1_counterexample :
    lookupSession initManager.sessions "abc" = none ∧
    (get_or_create initManager (some "abc")).1 = "abc" := by
  constructor
  · rfl
  · decide

/-- Claim C1 (amended): when `session_id` is a previously-unseen nonempty
string s, `get_or_create` returns s itself bound to a new empty Memory;
when `session_id` is absent, a fresh generated identifier is returned, and
two separate calls with `session_id = None` yield two distinct session
identifiers and two distinct empty Memory objects. -/
theorem c1_get_or_create_fresh (mgr : SessionMemoryManager) (s : String)
    (hfresh : FreshInv mgr) (hs : s ≠ "")
    (hnew : lookupSession mgr.sessions s = none) :
    (get_or_create mgr (some s)).1 = s ∧
    (get_or_create mgr (some s)).2.1.messages = [] ∧
    (get_or_create mgr none).1 ≠ (get_or_create (get_or_create mgr none).2.2 none).1 ∧
    (get_or_create mgr none).2.1.allocId ≠
      (get_or_create (get_or_create mgr none).2.2 none).2.1.allocId ∧
    (get_or_create mgr none).2.1.messages = [] ∧
    (get_or_create (get_or_create mgr none).2.2 none).2.1.messages = [] := by
  have h1 := get_or_create_none mgr hfresh
  have h2 := get_or_create_none _ (freshInv_after_none mgr hfresh)
  rw [h1] at h2 ⊢
  dsimp only at h2 ⊢
  rw [h2]
  dsimp only
  refine ⟨?_, ?_, ?_, ?_, rfl, rfl⟩
  · simp [get_or_create, isFalsy, hs, hnew]
  · simp [get_or_create, isFalsy, hs, hnew]
  · intro h
    have := uuidString_inj h
    omega
  · omega

/-- Claim C1 amended, witness at the startup manager and identifier "abc". -/
theorem c1_get_or_create_fresh_witness :
    (get_or_create initManager (some "abc")).1 = "abc" ∧
    (get_or_create initManager (some "abc")).2.1.messages = [] ∧
    (get_or_create initManager none).1 ≠
      (get_or_create (get_or_create initManager none).2.2 none).1 ∧
    (get_or_create initManager none).2.1.allocId ≠
      (get_or_create (get_or_create initManager none).2.2 none).2.1.allocId ∧
    (get_or_create initManager none).2.1.messages = [] ∧
    (get_or_create (get_or_create initManager none).2.2 none).2.1.messages = [] :=
  c1_get_or_create_fresh initManager "abc" (fun _ _ => rfl) (by decide) rfl

/-- Claim C6: for an identifier s already present in the store,
`get_or_create` returns the stored Memory and leaves the manager state
(hence the Memory and the session map) completely unchanged; for a
previously-unseen identifier t, the first call yields an empty Memory and a
second call with the same t returns that very Memory with the state again
unchanged. -/
theorem c6_get_or_create_existing (mgr : SessionMemoryManager)
    (s t : String) (m : TokenMemory)
    (hs : s ≠ "") (hmem : lookupSession mgr.sessions s = some m)
    (ht : t ≠ "") (htnew : lookupSession mgr.sessions t = none) :
    get_or_create mgr (some s) = (s, m, mgr) ∧
    (get_or_create mgr (some t)).2.1.messages = [] ∧
    get_or_create (get_or_create mgr (some t)).2.2 (some t) =
      (t, (get_or_create mgr (some t)).2.1, (get_or_create mgr (some t)).2.2) := by
  refine ⟨?_, ?_, ?_⟩
  · simp [get_or_create, isFalsy, hs, hmem]
  · simp [get_or_create, isFalsy, ht, htnew]
  · simp [get_or_create, isFalsy, ht, htnew, lookupSession]

/-- Claim C6, witness: a manager holding session "a", looked up with
s = "a" (present) and t = "b" (unseen). -/
theorem c6_get_or_create_existing_witness :
    get_or_create ⟨[("a", ⟨0, []⟩)], 1, 0⟩ (some "a") = ("a", ⟨0, []⟩, ⟨[("a", ⟨0, []⟩)], 1, 0⟩) ∧
    (get_or_create ⟨[("a", ⟨0, []⟩)], 1, 0⟩ (some "b")).2.1.messages = [] ∧
    get_or_create (get_or_create ⟨[("a", ⟨0, []⟩)], 1, 0⟩ (some "b")).2.2 (some "b") =
      ("b", (get_or_create ⟨[("a", ⟨0, []⟩)], 1, 0⟩ (some "b")).2.1,
        (get_or_create ⟨[("a", ⟨0, []⟩)], 1, 0⟩ (some "b")).2.2) :=
  c6_get_or_create_existing ⟨[("a", ⟨0, []⟩)], 1, 0⟩ "a" "b" ⟨0, []⟩
    (by decide) (by decide) (by decide) (by decide)

/-- Claim C9: the empty string is treated exactly like an absent session
identifier: `get_or_create` on `""` behaves identically to `get_or_create`
on `None`, returns the freshly generated (nonempty) identifier, and never
stores the empty string as a session key. -/
theorem c9_empty_session_id (mgr : SessionMemoryManager) :
    get_or_create mgr (some "") = get_or_create mgr none ∧
    (get_or_create mgr (some "")).1 = uuidString mgr.nextUuid ∧
    (get_or_create mgr (some "")).1 ≠ "" ∧
    (lookupSession mgr.sessions "" = none →
      lookupSession (get_or_create mgr (some "")).2.2.sessions "" = none) := by
  refine ⟨rfl, ?_, ?_, ?_⟩
  · cases h : lookupSession mgr.sessions (uuidString mgr.nextUuid) <;>
      simp [get_or_create, isFalsy, h]
  · cases h : lookupSession mgr.sessions (uuidString mgr.nextUuid) <;>
      simp [get_or_create, isFalsy, h, uuidString_ne_empty]
  · intro h0
    cases h : lookupSession mgr.sessions (uuidString mgr.nextUuid) <;>
      simp [get_or_create, isFalsy, h, lookupSession, h0,
        uuidString_ne_empty mgr.nextUuid]

/-- Claim C9, witness at the startup manager. -/
theorem c9_empty_session_id_witness :
    get_or_create initManager (some "") = get_or_create initManager none ∧
    (get_or_create initManager (some "")).1 = uuidString 0 ∧
    (get_or_create initManager (some "")).1 ≠ "" ∧
    lookupSession (get_or_create initManager (some "")).2.2.sessions "" = none := by
  have h := c9_empty_session_id initManager
  exact ⟨h.1, h.2.1, h.2.2.1, h.2.2.2 rfl⟩

/-- FastAPI response model `AgentEvent` (beeai.py lines 50-53):
a projected lifecycle event record. -/
structure AgentEvent where
  type : String
  message : String
  key : Option String := none
deriving DecidableEq, Repr

/-- `EventMeta` of an emitted lifecycle event: only its `name` is consulted
by the collector. -/
structure EventMeta where
  name : String
deriving DecidableEq, Repr

/-- Payload of an emitted lifecycle event, as consulted by the collector:
`data.update.key`, the rendered `str(data.update.parsed_value)`, and the
rendered `FrameworkError.ensure(data.error).explain()`. The renderings are
carried as opaque strings since they are produced by external code. -/
structure EventData where
  updateKey : String
  updateParsedValue : String
  errorExplain : String
deriving DecidableEq, Repr

/-- The `capture_event` closure produced by `create_event_collector`
(beeai.py lines 129-157): appends to the accumulated event list according
to the event name, dropping unrecognized names. -/
def capture_event (acc : List AgentEvent) (e : EventData × EventMeta) :
    List AgentEvent :=
  if e.2.name = "update" then
    acc ++ [⟨"update", e.1.updateParsedValue, some e.1.updateKey⟩]
  else if e.2.name = "error" then
    acc ++ [⟨"error", e.1.errorExplain, none⟩]
  else if e.2.name = "retry" then
    acc ++ [⟨"retry", "retrying the action...", none⟩]
  else if e.2.name = "start" then
    acc ++ [⟨"start", "starting new iteration", none⟩]
  else if e.2.name = "success" then
    acc ++ [⟨"success", "success", none⟩]
  else
    acc

/-- Feeding a finite sequence of lifecycle events, in emission order, to the
collector closure over an initially empty list. -/
def collectEvents (events : List (EventData × EventMeta)) : List AgentEvent :=
  events.foldl capture_event []

/-- Written from the spec's mapping table (spec §4.3): the per-event
projection the collector is claimed to realise as a filter-map. -/
def projectEventSpec (e : EventData × EventMeta) : Option AgentEvent :=
  if e.2.name = "update" then
    some ⟨"update", e.1.updateParsedValue, some e.1.updateKey⟩
  else if e.2.name = "error" then
    some ⟨"error", e.1.errorExplain, none⟩
  else if e.2.name = "retry" then
    some ⟨"retry", "retrying the action...", none⟩
  else if e.2.name = "start" then
    some ⟨"start", "starting new iteration", none⟩
  else if e.2.name = "success" then
    some ⟨"success", "success", none⟩
  else
    none

theorem capture_event_eq (acc : List AgentEvent) (e : EventData × EventMeta) :
    capture_event acc e = acc ++ (projectEventSpec e).toList := by
  unfold capture_event projectEventSpec
  split_ifs <;> simp

theorem foldl_capture_event (events : List (EventData × EventMeta)) :
    ∀ acc : List AgentEvent,
      events.foldl capture_event acc = acc ++ events.filterMap projectEventSpec := by
  induction events with
  | nil => intro acc; simp
  | cons e rest ih =>
      intro acc
      simp only [List.foldl_cons, ih, capture_event_eq, List.filterMap_cons]
      cases h : projectEventSpec e <;> simp [h]

/-- Claim C2: the collector's output is exactly the order-preserving
filter-map of the input event sequence under the spec's projection table
(so its length is at most the input length and the relative order of
recognized events is preserved, with nothing reordered or duplicated), and
events whose name is outside the five recognized names are dropped. -/
theorem c2_collector_filterMap (events : List (EventData × EventMeta)) :
    collectEvents events = events.filterMap projectEventSpec ∧
    (collectEvents events).length ≤ events.length ∧
    (∀ d : EventData, ∀ m : EventMeta,
      m.name ∉ ["update", "error", "retry", "start", "success"] →
      projectEventSpec (d, m) = none) := by
  refine ⟨?_, ?_, ?_⟩
  · simpa using foldl_capture_event events []
  · have h : collectEvents events = events.filterMap projectEventSpec := by
      simpa using foldl_capture_event events []
    rw [h]
    exact List.length_filterMap_le _ _
  · intro d m hm
    simp only [List.mem_cons, List.not_mem_nil, or_false, not_or] at hm
    simp [projectEventSpec, hm.1, hm.2.1, hm.2.2.1, hm.2.2.2.1, hm.2.2.2.2]

/-- Claim C2, witness: a concrete five-recognized-plus-unknown event
sequence, with the inner hypothesis discharged at name "banana". -/
theorem c2_collector_filterMap_witness :
    collectEvents
        [(⟨"k", "v", "x"⟩, ⟨"update"⟩), (⟨"", "", "boom"⟩, ⟨"error"⟩),
         (⟨"", "", ""⟩, ⟨"banana"⟩), (⟨"", "", ""⟩, ⟨"retry"⟩),
         (⟨"", "", ""⟩, ⟨"start"⟩), (⟨"", "", ""⟩, ⟨"success"⟩)] =
      [(⟨"k", "v", "x"⟩, ⟨"update"⟩), (⟨"", "", "boom"⟩, ⟨"error"⟩),
       (⟨"", "", ""⟩, ⟨"banana"⟩), (⟨"", "", ""⟩, ⟨"retry"⟩),
       (⟨"", "", ""⟩, ⟨"start"⟩),
       (⟨"", "", ""⟩, ⟨"success"⟩)].filterMap projectEventSpec ∧
    projectEventSpec (⟨"", "", ""⟩, ⟨"banana"⟩) = none := by
  have h := c2_collector_filterMap
    [(⟨"k", "v", "x"⟩, ⟨"update"⟩), (⟨"", "", "boom"⟩, ⟨"error"⟩),
     (⟨"", "", ""⟩, ⟨"banana"⟩), (⟨"", "", ""⟩, ⟨"retry"⟩),
     (⟨"", "", ""⟩, ⟨"start"⟩), (⟨"", "", ""⟩, ⟨"success"⟩)]
  exact ⟨h.1, h.2.2 ⟨"", "", ""⟩ ⟨"banana"⟩ (by decide)⟩

/-- `AgentExecutionConfig` passed to `agent.run` (beeai.py lines 180-184). -/
structure AgentExecutionConfig where
  max_retries_per_step : Nat
  total_max_retries : Nat
  max_iterations : Nat
deriving DecidableEq, Repr

/-- The execution budget hard-coded in both `chat_endpoint` and
`token_streamer`: `max_retries_per_step=3, total_max_retries=10,
max_iterations=20`. -/
def chatExecutionConfig : AgentExecutionConfig := ⟨3, 10, 20⟩

/-- FastAPI request body `ChatRequest` (beeai.py lines 46-48). -/
structure ChatRequest where
  prompt : String
  session_id : Option String := none
deriving DecidableEq, Repr

/-- FastAPI response body `ChatResponse` (beeai.py lines 55-58). -/
structure ChatResponse where
  response : String
  session_id : String
  events : List AgentEvent
deriving DecidableEq, Repr

/-- The two exception classes caught by `chat_endpoint`: a beeai
`FrameworkError` (rendered through `e.explain()`) or a generic `Exception`
(rendered through `str(ex)`). -/
inductive AgentRunError where
  | framework (explain : String)
  | generic (str : String)
deriving DecidableEq, Repr

/-- The text the corresponding `except` arm of `chat_endpoint` renders for
the caught exception: `e.explain()` for a `FrameworkError`, `str(ex)`
otherwise. -/
def agentErrorText : AgentRunError → String
  | .framework s => s
  | .generic s => s

/-- `chat_endpoint` (beeai.py lines 160-204), with the agent run abstracted
as a function `runAgent` from prompt, session memory and execution budget
to an outcome (final text, or a raised exception) together with the list of
events the collector hook captured before the run finished or failed. The
endpoint resolves the session, runs the agent with `chatExecutionConfig`,
and always returns a `ChatResponse`: the result text on success, or the
text prefixed "Agent error: " on an exception, in both cases with the
resolved session id and the collected events. -/
def chat_endpoint (req : ChatRequest) (mgr : SessionMemoryManager)
    (runAgent : String → TokenMemory → AgentExecutionConfig →
      Except AgentRunError String × List AgentEvent) :
    ChatResponse × SessionMemoryManager :=
  let r := get_or_create mgr req.session_id
  let run := runAgent req.prompt r.2.1 chatExecutionConfig
  match run.1 with
  | .ok text => (⟨text, r.1, run.2⟩, r.2.2)
  | .error e => (⟨"Agent error: " ++ agentErrorText e, r.1, run.2⟩, r.2.2)

/-- Claim C3: whenever the agent run raises (framework-level or generic),
`chat_endpoint` still returns a well-formed `ChatResponse` whose text is
the exception's explanation prefixed with "Agent error: ", whose session_id
is the resolved session identifier, and whose events are exactly those
collected before the failure. -/
theorem c3_chat_endpoint_error (req : ChatRequest) (mgr : SessionMemoryManager)
    (runAgent : String → TokenMemory → AgentExecutionConfig →
      Except AgentRunError String × List AgentEvent)
    (e : AgentRunError) (evs : List AgentEvent)
    (hrun : runAgent req.prompt (get_or_create mgr req.session_id).2.1
      chatExecutionConfig = (.error e, evs)) :
    (chat_endpoint req mgr runAgent).1 =
      ⟨"Agent error: " ++ agentErrorText e,
       (get_or_create mgr req.session_id).1, evs⟩ := by
  simp [chat_endpoint, hrun]

/-- Claim C3, witness: a prompt "hello" with no session id against a run
that raises a generic exception after collecting one start event. -/
theorem c3_chat_endpoint_error_witness :
    (chat_endpoint ⟨"hello", none⟩ initManager
        (fun _ _ _ => (.error (.generic "boom"), [⟨"start", "starting new iteration", none⟩]))).1 =
      ⟨"Agent error: " ++ agentErrorText (.generic "boom"),
       (get_or_create initManager none).1,
       [⟨"start", "starting new iteration", none⟩]⟩ :=
  c3_chat_endpoint_error ⟨"hello", none⟩ initManager
    (fun _ _ _ => (.error (.generic "boom"), [⟨"start", "starting new iteration", none⟩]))
    (.generic "boom") [⟨"start", "starting new iteration", none⟩] rfl

/-- Outcome of a modelled executor run: a successful final answer or the
bounded-failure outcome produced when a budget limit is exceeded. -/
inductive RunOutcome where
  | success (text : String)
  | budgetExceeded
deriving DecidableEq, Repr

/-- Modelled from the spec: one reasoning step with its per-step retry
budget (spec §4.2 — the executor loop lives in the external beeai
framework, not under src/). `oracle t` is the outcome of the t-th attempt
of the reasoning capability (`none` = the attempt fails validation);
`r` is the number of retries still allowed for this step. Returns the
step's result and the next global attempt index. -/
def tryStep (oracle : Nat → Option String) : Nat → Nat → Option String × Nat
  | t, 0 => (oracle t, t + 1)
  | t, r + 1 =>
      match oracle t with
      | some ans => (some ans, t + 1)
      | none => tryStep oracle (t + 1) r

/-- Modelled from the spec: the bounded executor loop (spec §4.2, external
to src/). Arguments: attempt index `t`, total-retry counter `tr`,
iterations used so far `iters`, and remaining iterations `fuel` (started at
`cfg.max_iterations`). Each iteration runs one step with up to
`cfg.max_retries_per_step` retries; an abandoned step increments the
total-retry counter, and exceeding `total_max_retries` or running out of
iterations ends the run with the bounded-failure outcome. Returns the
outcome and the number of iterations used. -/
def runLoop (oracle : Nat → Option String) (cfg : AgentExecutionConfig) :
    Nat → Nat → Nat → Nat → RunOutcome × Nat
  | _, _, iters, 0 => (.budgetExceeded, iters)
  | t, tr, iters, fuel + 1 =>
      match tryStep oracle t cfg.max_retries_per_step with
      | (some ans, _) => (.success ans, iters + 1)
      | (none, t1) =>
          if tr + 1 > cfg.total_max_retries then (.budgetExceeded, iters + 1)
          else runLoop oracle cfg t1 (tr + 1) (iters + 1) fuel

/-- Modelled from the spec: a full executor run under a budget (spec §4.2,
external to src/). Total by construction: recursion is on the iteration
fuel, so every run terminates. -/
def runExec (oracle : Nat → Option String) (cfg : AgentExecutionConfig) :
    RunOutcome × Nat :=
  runLoop oracle cfg 0 0 0 cfg.max_iterations

theorem tryStep_of_always_fail (oracle : Nat → Option String)
    (h : ∀ n, oracle n = none) :
    ∀ r t, tryStep oracle t r = (none, t + r + 1) := by
  intro r
  induction r with
  | zero => intro t; simp [tryStep, h]
  | succ r ih =>
      intro t
      simp only [tryStep, h]
      rw [ih, Prod.mk.injEq]
      exact ⟨rfl, by omega⟩

theorem runLoop_of_always_fail (oracle : Nat → Option String)
    (cfg : AgentExecutionConfig) (h : ∀ n, oracle n = none) :
    ∀ fuel t tr iters,
      (runLoop oracle cfg t tr iters fuel).1 = .budgetExceeded ∧
      (runLoop oracle cfg t tr iters fuel).2 ≤ iters + fuel := by
  intro fuel
  induction fuel with
  | zero => intro t tr iters; simp [runLoop]
  | succ fuel ih =>
      intro t tr iters
      simp only [runLoop, tryStep_of_always_fail oracle h]
      by_cases hc : tr + 1 > cfg.total_max_retries
      · simp [hc]
      · simp only [hc, if_false]
        refine ⟨(ih _ _ _).1, le_trans (ih _ _ _).2 (by omega)⟩

/-- Claim C7: under the façade's budget (3 retries per step, 10 total
retries, 20 iterations), a run whose reasoning capability fails on every
attempt terminates — the modelled executor is a total function recursing on
the iteration fuel — with the bounded-failure outcome, and the number of
iterations it uses never exceeds max_iterations = 20. -/
theorem c7_bounded_execution (oracle : Nat → Option String)
    (h : ∀ n, oracle n = none) :
    (runExec oracle chatExecutionConfig).1 = .budgetExceeded ∧
    (runExec oracle chatExecutionConfig).2 ≤ chatExecutionConfig.max_iterations := by
  have hmain := runLoop_of_always_fail oracle chatExecutionConfig h
    chatExecutionConfig.max_iterations 0 0 0
  exact ⟨hmain.1, by simpa [runExec] using hmain.2⟩

/-- Claim C7, witness: the everywhere-failing reasoning oracle. -/
theorem c7_bounded_execution_witness :
    (runExec (fun _ => none) chatExecutionConfig).1 = .budgetExceeded ∧
    (runExec (fun _ => none) chatExecutionConfig).2 ≤ chatExecutionConfig.max_iterations :=
  c7_bounded_execution (fun _ => none) (fun _ => rfl)

end BeeAI

namespace BQTool

/-- Python `str.strip()`: remove leading and trailing whitespace
(modelled over the ASCII whitespace recognized by `Char.isWhitespace`). -/
def pyStrip (s : String) : String :=
  String.mk
    (((s.data.dropWhile Char.isWhitespace).reverse.dropWhile Char.isWhitespace).reverse)

/-- Python `str.upper()` (modelled as ASCII upper-casing, which is all the
guard's keywords need). -/
def pyUpper (s : String) : String :=
  String.mk (s.data.map Char.toUpper)

/-- Python `str.startswith(pre)`. -/
def pyStartswith (pre s : String) : Bool :=
  pre.data.isPrefixOf s.data

/-- `BigQueryTool.is_read_only_query` (bqtool.py lines 436-438): strip the
query, upper-case it, and test for the prefixes "SELECT", "SHOW", "DESC". -/
def is_read_only_query (query : String) : Bool :=
  let normalized_query := pyUpper (pyStrip query)
  pyStartswith "SELECT" normalized_query ||
    pyStartswith "SHOW" normalized_query ||
    pyStartswith "DESC" normalized_query

/-- Written from the spec's words (spec §8): the query is accepted exactly
when, after stripping surrounding whitespace and upper-casing, it begins
with "SELECT", "SHOW" or "DESC". Stated separately from
`is_read_only_query` to compare source against spec. -/
def readOnlyQuerySpec (query : String) : Bool :=
  pyStartswith "SELECT" (pyUpper (pyStrip query)) ||
    pyStartswith "SHOW" (pyUpper (pyStrip query)) ||
    pyStartswith "DESC" (pyUpper (pyStrip query))

/-- `BigQueryToolOutput` (bqtool.py lines 37-40): the tool's output
envelope, with the result-row type abstracted as `α` (`Optional[Any]`). -/
structure BigQueryToolOutput (α : Type) where
  success : Bool
  error : Option String := none
  results : Option (List α) := none
deriving DecidableEq, Repr

/-- The refusal envelope returned for a non-read-only query
(bqtool.py lines 408-413). -/
def invalidQueryOutput {α : Type} : BigQueryToolOutput α :=
  ⟨false, some "Invalid query. Only SELECT queries are allowed.", none⟩

/-- The `try` block of `execute_query` (bqtool.py lines 414-434): run the
query on the backend `engine`; a non-empty row list yields a success
envelope carrying the rows, an empty one yields the failure envelope
"No rows selected", and a backend exception is re-raised wrapped in the
fixed explanatory message. -/
def runQueryOnBackend {α : Type} (query : String)
    (engine : String → Except String (List α)) :
    Except String (BigQueryToolOutput α) :=
  match engine query with
  | .ok results =>
      if results.length > 0 then .ok ⟨true, none, some results⟩
      else .ok ⟨false, some "No rows selected", none⟩
  | .error e =>
      .error ("Generate a correct query that retrieves data using the appropriate dialect. The original request was: "
        ++ query ++ ", and the error was: " ++ e)

/-- `BigQueryTool.execute_query` (bqtool.py lines 406-434): refuse any
query rejected by `is_read_only_query` without touching the backend,
otherwise execute it on the backend. -/
def execute_query {α : Type} (query : String)
    (engine : String → Except String (List α)) :
    Except String (BigQueryToolOutput α) :=
  if is_read_only_query query then runQueryOnBackend query engine
  else .ok invalidQueryOutput

/-- Claim C4: `is_read_only_query` agrees everywhere with the spec's
strip-uppercase-prefix criterion; it rejects "DROP TABLE x" and accepts
"  select * from t"; and `execute_query` answers any rejected query with
the fixed refusal envelope, independent of (and without consulting) the
backend. -/
theorem c4_read_only_guard :
    (∀ q : String, is_read_only_query q = readOnlyQuerySpec q) ∧
    is_read_only_query "DROP TABLE x" = false ∧
    is_read_only_query "  select * from t" = true ∧
    (∀ (q : String) (engine : String → Except String (List String)),
      is_read_only_query q = false →
      execute_query q engine = .ok invalidQueryOutput) := by
  refine ⟨fun q => rfl, by decide, by decide, ?_⟩
  intro q engine hq
  simp [execute_query, hq]

/-- Claim C4, witness: the guard hypothesis discharged at "DROP TABLE x"
against a concrete backend. -/
theorem c4_read_only_guard_witness :
    is_read_only_query "DROP TABLE x" = false ∧
    execute_query "DROP TABLE x" (fun _ => .ok ["row"]) = .ok invalidQueryOutput := by
  have h := c4_read_only_guard
  exact ⟨h.2.1, h.2.2.2 "DROP TABLE x" (fun _ => .ok ["row"]) h.2.1⟩

/-- Claim C8: the compound statement "SELECT 1; DROP TABLE x" passes the
read-only guard — the check only inspects the prefix of the stripped,
upper-cased text — so `execute_query` forwards it to the backend: on every
backend it behaves as the backend-execution branch, and on a concrete
backend returning one row it reports success with that row. -/
theorem c8_compound_statement_accepted :
    is_read_only_query "SELECT 1; DROP TABLE x" = true ∧
    (∀ (engine : String → Except String (List String)),
      execute_query "SELECT 1; DROP TABLE x" engine =
        runQueryOnBackend "SELECT 1; DROP TABLE x" engine) ∧
    execute_query "SELECT 1; DROP TABLE x" (fun _ => .ok ["row"]) =
      .ok ⟨true, none, some ["row"]⟩ := by
  have hg : is_read_only_query "SELECT 1; DROP TABLE x" = true := by decide
  refine ⟨hg, ?_, ?_⟩
  · intro engine
    simp [execute_query, hg]
  · simp [execute_query, hg, runQueryOnBackend]

/-- Claim C10: a read-only query whose backend run succeeds with zero rows
is reported as a failure envelope — success = false, error
"No rows selected", no results field — not as an empty success. -/
theorem c10_no_rows_selected (q : String)
    (engine : String → Except String (List String))
    (hro : is_read_only_query q = true)
    (hrows : engine q = .ok []) :
    execute_query q engine = .ok ⟨false, some "No rows selected", none⟩ := by
  simp [execute_query, hro, runQueryOnBackend, hrows]

/-- Claim C10, witness: "SELECT 1" against a backend returning zero rows. -/
theorem c10_no_rows_selected_witness :
    execute_query "SELECT 1" (fun _ => .ok ([] : List String)) =
      .ok ⟨false, some "No rows selected", none⟩ :=
  c10_no_rows_selected "SELECT 1" (fun _ => .ok []) (by decide) rfl

end BQTool

namespace FiscalWeek

/-- A Gregorian calendar date, as carried by Python's `datetime.date`. -/
structure Date where
  year : Int
  month : Int
  day : Int
deriving DecidableEq, Repr

/-- Day number of a Gregorian date (days since 1970-01-01, the civil-days
algorithm); models Python's `datetime.date` ordinal so that date
subtraction `(a - b).days` is `daysFromCivil a - daysFromCivil b`. -/
def daysFromCivil (dt : Date) : Int :=
  let y := if dt.month ≤ 2 then dt.year - 1 else dt.year
  let era := (if 0 ≤ y then y else y - 399) / 400
  let yoe := y - era * 400
  let mp := (dt.month + 9) % 12
  let doy := (153 * mp + 2) / 5 + dt.day - 1
  let doe := yoe * 365 + yoe / 4 - yoe / 100 + doy
  era * 146097 + doe - 719468

/-- The start of the Australian financial year containing `dt`
(fiscalweektool.py lines 52-55): July 1 of the same year if the month is at
least 7, else July 1 of the previous year. -/
def fyStartDate (dt : Date) : Date :=
  if dt.month ≥ 7 then ⟨dt.year, 7, 1⟩ else ⟨dt.year - 1, 7, 1⟩

/-- Week number from elapsed days since the fiscal-year start
(fiscalweektool.py line 60): Python's floor division `delta_days // 7`
plus 1 (`Int.fdiv` is Python's `//`). -/
def weekFromDelta (delta_days : Int) : Int :=
  delta_days.fdiv 7 + 1

/-- Python `f"{n:02d}"` for the week number: pad a single digit with a
leading zero. -/
def intTwoDigits (n : Int) : String :=
  if 0 ≤ n ∧ n < 10 then "0" ++ toString n else toString n

/-- `FiscalWeekTool.get_aus_financial_year_week` (fiscalweektool.py lines
50-61): elapsed days from the fiscal-year start, floor-divided by 7, plus
one, rendered as a two-digit number. -/
def get_aus_financial_year_week (dt : Date) : String :=
  let delta_days := daysFromCivil dt - daysFromCivil (fyStartDate dt)
  intTwoDigits (weekFromDelta delta_days)

/-- The tool's output envelope (`JSONToolOutput` with a string result). -/
structure FiscalWeekOutput where
  success : Bool
  results : String
deriving DecidableEq, Repr

/-- `FiscalWeekTool.to_fiscalweekid` (fiscalweektool.py lines 39-48):
fiscal year = calendar year plus one when the month is past June, appended
with the two-digit week number. -/
def to_fiscalweekid (dt : Date) : FiscalWeekOutput :=
  let fy := if dt.month > 6 then dt.year + 1 else dt.year
  let week := get_aus_financial_year_week dt
  ⟨true, toString fy ++ week⟩

/-- Claim C5: 2024-07-01 maps to fiscal year 2025 week 1, identifier
"202501"; 2024-06-30 maps to fiscal year 2024 with week "53"
("202453"), and 53 is the last week of FY2024: that date lies 365 days
after the FY2024 start (2023-07-01), and no day of the fiscal year — at
most 365 elapsed days — gets a week number beyond 53. -/
theorem c5_fiscal_week (delta : Int) (h0 : 0 ≤ delta) (h365 : delta ≤ 365) :
    to_fiscalweekid ⟨2024, 7, 1⟩ = ⟨true, "202501"⟩ ∧
    to_fiscalweekid ⟨2024, 6, 30⟩ = ⟨true, "202453"⟩ ∧
    get_aus_financial_year_week ⟨2024, 6, 30⟩ = "53" ∧
    daysFromCivil ⟨2024, 6, 30⟩ - daysFromCivil ⟨2023, 7, 1⟩ = 365 ∧
    weekFromDelta delta ≤ 53 := by
  refine ⟨by decide, by decide, by decide, by decide, ?_⟩
  obtain ⟨n, rfl⟩ := Int.eq_ofNat_of_zero_le h0
  have hn : n ≤ 365 := by exact_mod_cast h365
  cases n with
  | zero => decide
  | succ m =>
      show weekFromDelta (Int.ofNat (m + 1)) ≤ 53
      rw [show weekFromDelta (Int.ofNat (m + 1)) = Int.ofNat ((m + 1) / 7) + 1 from rfl]
      show (((m + 1) / 7 : Nat) : Int) + 1 ≤ 53
      have hd : (m + 1) / 7 ≤ 52 := by omega
      omega

/-- Claim C5, witness at the fiscal year's final elapsed-day count 365. -/
theorem c5_fiscal_week_witness :
    to_fiscalweekid ⟨2024, 7, 1⟩ = ⟨true, "202501"⟩ ∧
    to_fiscalweekid ⟨2024, 6, 30⟩ = ⟨true, "202453"⟩ ∧
    get_aus_financial_year_week ⟨2024, 6, 30⟩ = "53" ∧
    daysFromCivil ⟨2024, 6, 30⟩ - daysFromCivil ⟨2023, 7, 1⟩ = 365 ∧
    weekFromDelta 365 ≤ 53 :=
  c5_fiscal_week 365 (by decide) (by decide)

end FiscalWeek
